import Mathlib

/-!
Shallow embedding of `src/file_analysis_mcp/server.py`.

The repository exposes four operations through a FastMCP server:
`analyze_text`, `read_file`, `list_files` and `get_file_resource`.
`analyze_text` is a pure function over its text argument; it is embedded
directly.  The file-system operations are embedded by passing the state of
the file system explicitly (an abstract map from paths to outcomes), since
the Python code only observes the file system through
`os.path.exists`, `open`/`read`, `os.listdir`, `os.path.isfile` and
`os.path.isdir`.
-/

namespace FileAnalysis

/-! ### Python string primitives used by `analyze_text` -/

/-- Whitespace characters recognised by Python `str.split()` with no
arguments: every code point with the Unicode whitespace property
(CPython: Zs plus the bidirectional classes WS, B and S). -/
def pyIsSpace (c : Char) : Bool :=
  c.toNat = 0x09 || c.toNat = 0x0A || c.toNat = 0x0B || c.toNat = 0x0C ||
  c.toNat = 0x0D || c.toNat = 0x1C || c.toNat = 0x1D || c.toNat = 0x1E ||
  c.toNat = 0x1F || c.toNat = 0x20 || c.toNat = 0x85 || c.toNat = 0xA0 ||
  c.toNat = 0x1680 || (0x2000 ≤ c.toNat && c.toNat ≤ 0x200A) ||
  c.toNat = 0x2028 || c.toNat = 0x2029 || c.toNat = 0x202F ||
  c.toNat = 0x205F || c.toNat = 0x3000

/-- Word characters matched by the regex class `\w` in
`re.findall(r'\b\w+\b', ...)`: alphanumerics plus underscore.  Python's
`\w` additionally matches non-ASCII alphanumerics; those extra characters
are opaque single code points and none of the claims distinguishes them,
so the alphabet is modelled by the ASCII test plus underscore. -/
def isWordChar (c : Char) : Bool :=
  c.isAlphanum || c = '_'

/-- One step of Python `str.lower()`.  Unicode lowercasing maps every code
point to a single code point except U+0130 (LATIN CAPITAL LETTER I WITH
DOT ABOVE), whose unconditional lowercase mapping in `SpecialCasing.txt`
is the two code points U+0069 U+0307; CPython applies exactly this table.
Single-point mappings are length preserving, and the ASCII ones (the only
ones exercised by the claims' concrete inputs) are `Char.toLower`. -/
def pyLowerChar (c : Char) : List Char :=
  if c = 'İ' then ['i', '̇'] else [c.toLower]

/-- Python `str.lower()` over the character sequence of a string. -/
def pyLower : List Char → List Char
  | [] => []
  | c :: rest => pyLowerChar c ++ pyLower rest

/-! ### `collections.Counter` and `most_common` -/

/-- Record one occurrence of `x` in an association list, preserving
insertion order: `Counter` keys appear in first-seen order. -/
def bump {α : Type} [DecidableEq α] (l : List (α × Nat)) (x : α) :
    List (α × Nat) :=
  match l with
  | [] => [(x, 1)]
  | (y, n) :: rest => if x = y then (y, n + 1) :: rest else (y, n) :: bump rest x

/-- `collections.Counter(xs)` as an association list in first-seen key
order (CPython dicts preserve insertion order). -/
def counter {α : Type} [DecidableEq α] (xs : List α) : List (α × Nat) :=
  xs.foldl bump []

/-- The comparison used by `Counter.most_common`: sort by count,
descending.  `most_common(n)` is documented as
`sorted(iterable, key=itemgetter(1), reverse=True)[:n]` via
`heapq.nlargest`, a stable descending sort. -/
def countGE (a b : String × Nat) : Prop := b.2 ≤ a.2

instance : DecidableRel countGE := fun a b => Nat.decLe b.2 a.2

instance : IsTotal (String × Nat) countGE :=
  ⟨fun a b => Nat.le_total b.2 a.2⟩

instance : IsTrans (String × Nat) countGE :=
  ⟨fun _ _ _ hab hbc => Nat.le_trans hbc hab⟩

/-- `Counter.most_common(n)`: the entries stably sorted by descending
count, truncated to `n`.  `List.insertionSort` is a stable sort, so ties
keep their first-insertion (first-occurrence) order. -/
def mostCommon (n : Nat) (l : List (String × Nat)) : List (String × Nat) :=
  (List.insertionSort countGE l).take n

/-! ### Tokenisation -/

/-- Helper for `re.findall(r'\b\w+\b', s)`: collect the maximal runs of
word characters.  `cur` holds the current run, reversed. -/
def tokenizeAux (cur : List Char) : List Char → List String
  | [] => if cur.isEmpty then [] else [String.mk cur.reverse]
  | c :: rest =>
    if isWordChar c then tokenizeAux (c :: cur) rest
    else if cur.isEmpty then tokenizeAux [] rest
    else String.mk cur.reverse :: tokenizeAux [] rest

/-- `re.findall(r'\b\w+\b', s)`: on every string this regex yields exactly
the maximal runs of `\w` characters (a maximal run always has a word
boundary on each side). -/
def tokenize (s : List Char) : List String :=
  tokenizeAux [] s

/-- Helper for Python `str.split()`: maximal runs of non-whitespace
characters, empty tokens discarded. -/
def pySplitAux (cur : List Char) : List Char → List (List Char)
  | [] => if cur.isEmpty then [] else [cur.reverse]
  | c :: rest =>
    if pyIsSpace c then
      if cur.isEmpty then pySplitAux [] rest
      else cur.reverse :: pySplitAux [] rest
    else pySplitAux (c :: cur) rest

/-- Python `str.split()` with no arguments. -/
def pySplit (s : List Char) : List (List Char) :=
  pySplitAux [] s

/-! ### `str.splitlines` -/

/-- Line-boundary characters of Python `str.splitlines` other than
`'\r'` (which is handled separately so that `"\r\n"` counts as a single
boundary): LF, VT, FF, FS, GS, RS, NEL, LINE SEPARATOR, PARAGRAPH
SEPARATOR. -/
def pyIsLineBoundary (c : Char) : Bool :=
  c = '\n' || c = '\u000B' || c = '\u000C' || c = '\u001C' ||
  c = '\u001D' || c = '\u001E' || c = '\u0085' ||
  c = '\u2028' || c = '\u2029'

/-- The line boundaries named by the specification: only `'\n'`
(with `'\r'` and `"\r\n"` handled separately, exactly as in `slAux`). -/
def specIsLineBoundary (c : Char) : Bool :=
  c = '\n'

/-- Generic splitter with Python `splitlines` structure: `'\r'` ends a
line and sets `skipLF` so that an immediately following `'\n'` is part of
the same boundary; any `isB` character ends a line; a trailing segment is
kept only when non-empty. -/
def slAux (isB : Char → Bool) (cur : List Char) (skipLF : Bool) :
    List Char → List (List Char)
  | [] => if cur.isEmpty then [] else [cur.reverse]
  | c :: rest =>
    if skipLF && c = '\n' then slAux isB [] false rest
    else if c = '\r' then cur.reverse :: slAux isB [] true rest
    else if isB c then cur.reverse :: slAux isB [] false rest
    else slAux isB (c :: cur) false rest

/-- Python `str.splitlines()`. -/
def pySplitlines (s : List Char) : List (List Char) :=
  slAux pyIsLineBoundary [] false s

/-- Modelled from the spec: splitting on the universal newline boundaries
`\n`, `\r\n`, `\r` only, trailing empty segment not counted — the rule
stated in the specification, which names no other boundary characters. -/
def specSplitlines (s : List Char) : List (List Char) :=
  slAux specIsLineBoundary [] false s

/-! ### `analyze_text` -/

/-- The `statistics` sub-dictionary of the `analyze_text` result. -/
structure Statistics where
  character_count : Nat
  word_count : Nat
  line_count : Nat
  deriving DecidableEq, Repr

/-- The dictionary returned by `analyze_text`.  The two frequency
dictionaries are association lists in CPython dict insertion order. -/
structure AnalysisResult where
  statistics : Statistics
  character_frequency : List (Char × Nat)
  top_words : List (String × Nat)
  deriving DecidableEq, Repr

/-- `Counter(re.findall(r'\b\w+\b', text.lower()))` as an association
list in first-occurrence order. -/
def wordCounts (text : String) : List (String × Nat) :=
  counter (tokenize (pyLower text.data))

/-- The tool `analyze_text(text)`:
`char_count = len(text)`, `word_count = len(text.split())`,
`line_count = len(text.splitlines())`,
`char_freq = dict(Counter(text.lower()))`,
`word_freq = dict(Counter(re.findall(r'\b\w+\b', text.lower())).most_common(10))`. -/
def analyze_text (text : String) : AnalysisResult :=
  { statistics :=
      { character_count := text.data.length
        word_count := (pySplit text.data).length
        line_count := (pySplitlines text.data).length }
    character_frequency := counter (pyLower text.data)
    top_words := mostCommon 10 (wordCounts text) }

/-- Modelled from the spec: the source `analyze_text` takes no `topN`
parameter (the limit is the literal `10` in `most_common(10)`), so the
generalised engine `analyze(text, topN)` of the specification — which
must fail with `InvalidArgument` when `topN` is negative and otherwise
behave as the source does with `topN` in place of `10` — is reconstructed
here from the specification's words. -/
def analyzeWithTopN (text : String) (topN : Int) : Except String AnalysisResult :=
  if topN < 0 then .error "InvalidArgument"
  else .ok
    { statistics :=
        { character_count := text.data.length
          word_count := (pySplit text.data).length
          line_count := (pySplitlines text.data).length }
      character_frequency := counter (pyLower text.data)
      top_words := mostCommon topN.toNat (wordCounts text) }

/-! ### File-system collaborators

`read_file`, `list_files` and `get_file_resource` observe the outside
world only through `os.path.exists`, `open(...).read()`, `os.listdir`,
`os.path.isfile` and `os.path.isdir`.  The file system is therefore
embedded as an explicit state record answering exactly those queries;
a `try/except` block around an I/O call becomes a match on an outcome
value that is either the successful result or the caught exception's
message. -/

/-- Outcome of `open(p, 'r', encoding='utf-8').read()`: the decoded
contents, or the exception caught by the `except` clause. -/
inductive ReadOutcome where
  | ok (contents : String)
  | ioFault (msg : String)
  deriving DecidableEq

/-- Outcome of `os.listdir(d)`: the entry names, or the exception caught
by the `except` clause. -/
inductive ListOutcome where
  | ok (entries : List String)
  | ioFault (msg : String)
  deriving DecidableEq

/-- What `os.stat` reports for a path: a regular file, a directory, or
anything else (socket, broken symlink, ...).  The three cases are
mutually exclusive, as `S_ISREG` and `S_ISDIR` are on every POSIX
system. -/
inductive EntryKind where
  | file
  | dir
  | other
  deriving DecidableEq

/-- The file-system state visible to the Python code. -/
structure FileSystem where
  /-- `os.path.exists p`. -/
  pathExists : String → Bool
  /-- Result of opening and reading path `p`. -/
  readOutcome : String → ReadOutcome
  /-- Result of `os.listdir d`. -/
  listOutcome : String → ListOutcome
  /-- Kind of `os.path.join(d, item)`, as tested by
  `os.path.isfile` / `os.path.isdir`. -/
  statKind : String → String → EntryKind

/-- The tool `read_file(file_path)`: the not-found message when
`os.path.exists` fails, otherwise the contents, with any read exception
converted to an error message. -/
def read_file (fs : FileSystem) (file_path : String) : String :=
  if fs.pathExists file_path = false then
    "Error: File not found at " ++ file_path
  else
    match fs.readOutcome file_path with
    | .ok contents => contents
    | .ioFault msg => "Error reading file: " ++ msg

/-- The dictionary returned by `list_files`: `listing files directories`
is the dictionary with exactly the keys `"files"` and `"directories"`,
and `failure msg` is the dictionary with exactly the key `"error"`. -/
inductive ListFilesResult where
  | listing (files : List String) (directories : List String)
  | failure (msg : String)
  deriving DecidableEq

/-- The tool `list_files(directory)`. -/
def list_files (fs : FileSystem) (directory : String) : ListFilesResult :=
  if fs.pathExists directory = false then
    .failure ("Directory not found: " ++ directory)
  else
    match fs.listOutcome directory with
    | .ok contents =>
      .listing
        (contents.filter fun item => decide (fs.statKind directory item = .file))
        (contents.filter fun item => decide (fs.statKind directory item = .dir))
    | .ioFault msg => .failure ("Error listing directory: " ++ msg)

/-- The resource handler `get_file_resource(file_path)`: its body is
exactly `return read_file(file_path)`. -/
def get_file_resource (fs : FileSystem) (file_path : String) : String :=
  read_file fs file_path

/-- A concrete file system used to instantiate theorems with
hypotheses. -/
def sampleFS : FileSystem where
  pathExists := fun _ => true
  readOutcome := fun _ => .ok "hello"
  listOutcome := fun _ => .ok ["a.txt", "sub"]
  statKind := fun _ item => if item = "a.txt" then .file else .dir

end FileAnalysis

namespace FileAnalysis

/-! ### Helper lemmas -/

/-- Total count recorded by a frequency table. -/
def sumVals {α : Type} (l : List (α × Nat)) : Nat :=
  (l.map Prod.snd).sum

theorem sumVals_bump {α : Type} [DecidableEq α] (l : List (α × Nat)) (x : α) :
    sumVals (bump l x) = sumVals l + 1 := by
  induction l with
  | nil => rfl
  | cons p rest ih =>
    obtain ⟨y, n⟩ := p
    by_cases hxy : x = y
    · simp [bump, hxy, sumVals, List.sum_cons]
      omega
    · simp [bump, hxy, sumVals, List.sum_cons] at ih ⊢
      omega

theorem sumVals_foldl_bump {α : Type} [DecidableEq α] (xs : List α) :
    ∀ acc : List (α × Nat),
      sumVals (List.foldl bump acc xs) = sumVals acc + xs.length := by
  induction xs with
  | nil => intro acc; simp
  | cons x rest ih =>
    intro acc
    simp only [List.foldl_cons, List.length_cons]
    rw [ih (bump acc x), sumVals_bump]
    omega

/-- The counts in `Counter(xs)` sum to the number of counted items. -/
theorem sumVals_counter {α : Type} [DecidableEq α] (xs : List α) :
    sumVals (counter xs) = xs.length := by
  simpa [counter, sumVals] using sumVals_foldl_bump xs []

/-- Lowercasing is length preserving exactly on texts without U+0130. -/
theorem pyLower_length (l : List Char) (h : 'İ' ∉ l) :
    (pyLower l).length = l.length := by
  induction l with
  | nil => rfl
  | cons c rest ih =>
    have hc : ¬(c = 'İ') := fun e => h (e ▸ List.mem_cons_self c rest)
    have hr : 'İ' ∉ rest := fun hm => h (List.mem_cons_of_mem c hm)
    simp [pyLower, pyLowerChar, hc, ih hr]

/-- `most_common n` returns at most `n` entries. -/
theorem mostCommon_length (n : Nat) (l : List (String × Nat)) :
    (mostCommon n l).length ≤ n := by
  simp only [mostCommon, List.length_take]
  exact Nat.min_le_left n _

/-- `most_common n` is in descending-count order. -/
theorem mostCommon_sorted (n : Nat) (l : List (String × Nat)) :
    List.Sorted countGE (mostCommon n l) :=
  List.Pairwise.sublist (List.take_sublist n _)
    (List.sorted_insertionSort countGE l)

/-- Every entry left out of `most_common n` has a count no larger than
any selected entry. -/
theorem mostCommon_sel (n : Nat) (l : List (String × Nat)) :
    ∀ p ∈ l, p ∉ mostCommon n l → ∀ q ∈ mostCommon n l, p.2 ≤ q.2 := by
  intro p hp hnp q hq
  have hmem : p ∈ List.insertionSort countGE l :=
    (List.perm_insertionSort countGE l).mem_iff.mpr hp
  have hs : List.Sorted countGE (List.insertionSort countGE l) :=
    List.sorted_insertionSort countGE l
  have hsplit := List.take_append_drop n (List.insertionSort countGE l)
  rw [← hsplit] at hmem hs
  have hcross := (List.pairwise_append.mp hs).2.2
  rcases List.mem_append.mp hmem with h1 | h2
  · exact absurd h1 hnp
  · exact hcross q hq p h2

/-- The extra line boundaries Python `splitlines` recognises beyond
`\n`, `\r\n`, `\r`: VT, FF, FS, GS, RS, NEL, LINE SEPARATOR, PARAGRAPH
SEPARATOR. -/
def extraLineBoundaries : List Char :=
  ['\u000B', '\u000C', '\u001C', '\u001D', '\u001E', '\u0085', '\u2028', '\u2029']

theorem boundary_eq (c : Char) (h : c ∉ extraLineBoundaries) :
    pyIsLineBoundary c = specIsLineBoundary c := by
  simp only [extraLineBoundaries, List.mem_cons, List.not_mem_nil, or_false] at h
  push_neg at h
  obtain ⟨h1, h2, h3, h4, h5, h6, h7, h8⟩ := h
  simp [pyIsLineBoundary, specIsLineBoundary, h1, h2, h3, h4, h5, h6, h7, h8]

theorem slAux_congr {isB1 isB2 : Char → Bool} :
    ∀ (l cur : List Char) (skip : Bool),
      (∀ c ∈ l, isB1 c = isB2 c) →
      slAux isB1 cur skip l = slAux isB2 cur skip l
  | [], _, _, _ => rfl
  | c :: rest, cur, skip, h => by
    have hc : isB1 c = isB2 c := h c (List.mem_cons_self c rest)
    have hrest : ∀ d ∈ rest, isB1 d = isB2 d :=
      fun d hd => h d (List.mem_cons_of_mem c hd)
    simp only [slAux, hc]
    split
    · exact slAux_congr rest [] false hrest
    · split
      · rw [slAux_congr rest [] true hrest]
      · split
        · rw [slAux_congr rest [] false hrest]
        · exact slAux_congr rest (c :: cur) false hrest

/-- On texts free of the extra boundary characters, Python `splitlines`
agrees with the three-boundary rule of the specification. -/
theorem pySplitlines_eq_spec (l : List Char)
    (h : ∀ c ∈ l, c ∉ extraLineBoundaries) :
    pySplitlines l = specSplitlines l :=
  slAux_congr l [] false (fun c hc => boundary_eq c (h c hc))

/-! ### First claims -/

/-- C1: for every text `t`, `analyze_text(t).statistics.character_count`
equals the number of Unicode code points of `t` (Python `len`). -/
theorem character_count_eq_length (t : String) :
    (analyze_text t).statistics.character_count = t.data.length := rfl

/-- C6: on the empty string `analyze_text` returns all-zero statistics
and empty frequency dictionaries. -/
theorem analyze_empty :
    analyze_text "" =
      { statistics := { character_count := 0, word_count := 0, line_count := 0 }
        character_frequency := []
        top_words := [] } := rfl

/-- C2: `top_words` holds at most 10 entries, in descending-count order;
every word count left out is no larger than any selected one; aggregation
is case-insensitive (`"The the THE cat"` gives `the ↦ 3, cat ↦ 1`); and
ties are broken by first occurrence in the token stream (`"b a b a"`
keeps `b` before `a`). -/
theorem top_words_spec :
    (∀ t : String,
      (analyze_text t).top_words.length ≤ 10 ∧
      List.Sorted countGE (analyze_text t).top_words ∧
      (∀ p ∈ wordCounts t, p ∉ (analyze_text t).top_words →
        ∀ q ∈ (analyze_text t).top_words, p.2 ≤ q.2)) ∧
    (analyze_text "The the THE cat").top_words = [("the", 3), ("cat", 1)] ∧
    (analyze_text "b a b a").top_words = [("b", 2), ("a", 2)] := by
  refine ⟨fun t => ⟨?_, ?_, ?_⟩, rfl, rfl⟩
  · exact mostCommon_length 10 (wordCounts t)
  · exact mostCommon_sorted 10 (wordCounts t)
  · exact mostCommon_sel 10 (wordCounts t)

/-- Witness for C2 at a text with eleven distinct words: the excluded
entry `("k", 1)` counts no more than the selected entry `("a", 2)`. -/
theorem top_words_spec_witness :
    ("k", 1) ∈ wordCounts "a a b c d e f g h i j k" ∧
    ("k", 1) ∉ (analyze_text "a a b c d e f g h i j k").top_words ∧
    ("a", 2) ∈ (analyze_text "a a b c d e f g h i j k").top_words ∧
    (("k", 1) : String × Nat).2 ≤ (("a", 2) : String × Nat).2 :=
  ⟨by decide, by decide, by decide,
    (top_words_spec.1 "a a b c d e f g h i j k").2.2 ("k", 1) (by decide)
      (by decide) ("a", 2) (by decide)⟩

/-- C3 fails as stated: on `"İ"` (U+0130) the character count is 1 but
`str.lower` expands U+0130 to two code points, so the character
frequencies sum to 2. -/
theorem character_frequency_sum_counterexample :
    (analyze_text "İ").statistics.character_count = 1 ∧
    sumVals (analyze_text "İ").character_frequency = 2 :=
  ⟨rfl, rfl⟩

/-- C3 amended: the values of `character_frequency` always sum to the
length of the lower-cased text, which equals `character_count` whenever
the text does not contain U+0130 — the unique code point whose Python
lowercase expansion has length two. -/
theorem character_frequency_sum (t : String) (h : 'İ' ∉ t.data) :
    sumVals (analyze_text t).character_frequency =
      (analyze_text t).statistics.character_count := by
  show sumVals (counter (pyLower t.data)) = t.data.length
  rw [sumVals_counter, pyLower_length t.data h]

/-- Witness for the amended C3 at `"ab"`. -/
theorem character_frequency_sum_witness :
    'İ' ∉ "ab".data ∧
    sumVals (analyze_text "ab").character_frequency =
      (analyze_text "ab").statistics.character_count :=
  ⟨by decide, character_frequency_sum "ab" (by decide)⟩

/-- C4 (engine modelled from the spec, which adds the `topN` parameter
the source fixes at 10): a negative `topN` yields the `InvalidArgument`
failure, never a result. -/
theorem analyzeWithTopN_neg (t : String) (n : Int) (h : n < 0) :
    analyzeWithTopN t n = Except.error "InvalidArgument" := by
  simp [analyzeWithTopN, h]

/-- Witness for C4 at `topN = -1`. -/
theorem analyzeWithTopN_neg_witness :
    analyzeWithTopN "some text" (-1) = Except.error "InvalidArgument" :=
  analyzeWithTopN_neg "some text" (-1) (by decide)

/-- C5 fails as stated: Python `splitlines` also splits on vertical tab
(U+000B), so `"a\u000Bb"` has `line_count = 2` while the three-boundary
rule of the claim yields a single line. -/
theorem line_count_counterexample :
    (analyze_text "a\u000Bb").statistics.line_count = 2 ∧
    (specSplitlines "a\u000Bb".data).length = 1 :=
  ⟨rfl, rfl⟩

/-- C5 amended: `line_count` is the number of segments of Python
`splitlines`, whose boundary set additionally holds VT, FF, FS, GS, RS,
NEL, LINE SEPARATOR and PARAGRAPH SEPARATOR; on texts free of those
extra characters it coincides with the claimed `\n` / `\r\n` / `\r`
rule (so in particular `"a\nb\n" ↦ 2`, `"a\nb" ↦ 2`, `"" ↦ 0`). -/
theorem line_count_spec (t : String)
    (h : ∀ c ∈ t.data, c ∉ extraLineBoundaries) :
    (analyze_text t).statistics.line_count = (specSplitlines t.data).length := by
  show (pySplitlines t.data).length = (specSplitlines t.data).length
  rw [pySplitlines_eq_spec t.data h]

/-- Witness for the amended C5 at `"a\nb\n"`, where both splitters give
two lines. -/
theorem line_count_spec_witness :
    (∀ c ∈ "a\nb\n".data, c ∉ extraLineBoundaries) ∧
    (analyze_text "a\nb\n").statistics.line_count =
      (specSplitlines "a\nb\n".data).length ∧
    (analyze_text "a\nb\n").statistics.line_count = 2 :=
  ⟨by decide, line_count_spec "a\nb\n" (by decide), rfl⟩

/-- C7: `analyze_text` is a total Lean function of its text argument
alone — it consults no state and can signal no failure — so identical
inputs give identical outputs. -/
theorem analyze_text_deterministic (t₁ t₂ : String) (h : t₁ = t₂) :
    analyze_text t₁ = analyze_text t₂ :=
  congrArg analyze_text h

/-- Witness for C7 on a non-ASCII input. -/
theorem analyze_text_deterministic_witness :
    analyze_text "Ω a\tΩ" = analyze_text "Ω a\tΩ" :=
  analyze_text_deterministic "Ω a\tΩ" "Ω a\tΩ" rfl

/-- C8: `read_file` always returns an ordinary string — the decoded
contents when the path exists and reading succeeds, the descriptive
not-found message when the path is missing, and the read-failure
description when reading faults; a caught I/O fault never propagates. -/
theorem read_file_cases (fs : FileSystem) (p : String) :
    (fs.pathExists p = false ∧
      read_file fs p = "Error: File not found at " ++ p) ∨
    (∃ c, fs.pathExists p = true ∧ fs.readOutcome p = .ok c ∧
      read_file fs p = c) ∨
    (∃ e, fs.pathExists p = true ∧ fs.readOutcome p = .ioFault e ∧
      read_file fs p = "Error reading file: " ++ e) := by
  by_cases hex : fs.pathExists p = false
  · exact Or.inl ⟨hex, by simp [read_file, hex]⟩
  · have hex' : fs.pathExists p = true := by
      cases h : fs.pathExists p
      · exact absurd h hex
      · rfl
    cases hro : fs.readOutcome p with
    | ok c =>
      exact Or.inr (Or.inl ⟨c, hex', rfl, by simp [read_file, hex', hro]⟩)
    | ioFault e =>
      exact Or.inr (Or.inr ⟨e, hex', rfl, by simp [read_file, hex', hro]⟩)

/-- C9: `get_file_resource` delegates to `read_file`, so the two
operations agree on every file system and path. -/
theorem get_file_resource_eq_read_file (fs : FileSystem) (p : String) :
    get_file_resource fs p = read_file fs p := rfl

/-- C10: on an existing, listable directory, `list_files` returns the
two-key `files` / `directories` dictionary — never the `error` key —
and no name appears in both lists, since `os.stat` reports a single
exclusive kind per path. -/
theorem list_files_listing_disjoint (fs : FileSystem) (d : String)
    (h1 : fs.pathExists d = true)
    (h2 : ∃ entries, fs.listOutcome d = ListOutcome.ok entries) :
    ∃ fl dl, list_files fs d = ListFilesResult.listing fl dl ∧
      ∀ x, x ∈ fl → x ∉ dl := by
  obtain ⟨entries, he⟩ := h2
  refine ⟨entries.filter (fun item => decide (fs.statKind d item = EntryKind.file)),
    entries.filter (fun item => decide (fs.statKind d item = EntryKind.dir)),
    by simp [list_files, h1, he], ?_⟩
  intro x hx hx'
  have hf := List.mem_filter.mp hx
  have hd := List.mem_filter.mp hx'
  have hf' : fs.statKind d x = EntryKind.file := of_decide_eq_true hf.2
  have hd' : fs.statKind d x = EntryKind.dir := of_decide_eq_true hd.2
  rw [hf'] at hd'
  exact EntryKind.noConfusion hd'

/-- Witness for C10 on a file system whose directory holds one file and
one subdirectory. -/
theorem list_files_listing_disjoint_witness :
    ∃ fl dl, list_files sampleFS "." = ListFilesResult.listing fl dl ∧
      ∀ x, x ∈ fl → x ∉ dl :=
  list_files_listing_disjoint sampleFS "." rfl ⟨["a.txt", "sub"], rfl⟩

end FileAnalysis
